import Mathlib

/-!
Shallow embedding of the `SceneManager` class from
`Source/SceneManager.cpp` / `Source/SceneManager.h` (CS-330 OpenGL scene
project), together with theorems checking the natural-language
specification against it.

Modelling conventions:
* `float` scalars that only get stored and compared (colors, material
  parameters, texture-unit indices) are modelled as `ℚ`; C++ `int` as `Int`;
  `uint32_t` GL handles as `Nat`.
* the trigonometric scalars flowing through `glm` transform matrices are
  modelled over an abstract field `R` equipped with `RealOps` (`pi`, `cos`,
  `sin`), instantiated with the real functions in theorems; this keeps every
  definition computable.
* the fixed array `m_textureIDs[16]` plus counter `m_loadedTextures` is
  modelled as the list of its initialized prefix, starting empty; writes past
  index 15 are out of bounds in the source (undefined behavior), so statements
  about slot ranges carry the hypothesis that at most 16 textures are loaded.
* OpenGL / shader calls are modelled by their effect on an explicit
  `ShaderUniforms` record; `std::cout` logging by a returned `List String`;
  the `stbi_load` image decode by an `Option ImageData` input; `glGenTextures`
  by a handle passed in by the caller.
* `m_pShaderManager` is modelled as attached (the program always constructs
  `SceneManager` with a non-null shader manager, so every `NULL` guard in the
  setters takes the non-null branch).
-/

namespace SceneManager

/-- Components of a `glm::vec3` of floats, modelled as rationals. -/
abbrev Vec3q := ℚ × ℚ × ℚ

/-- Components of a `glm::vec4` of floats, modelled as rationals. -/
abbrev Vec4q := ℚ × ℚ × ℚ × ℚ

/-- The `OBJECT_MATERIAL` struct of `SceneManager.h` (field order as declared). -/
structure OBJECT_MATERIAL where
  ambientStrength : ℚ
  ambientColor : Vec3q
  diffuseColor : Vec3q
  specularColor : Vec3q
  shininess : ℚ
  tag : String
deriving Repr, DecidableEq

/-- The `TEXTURE_INFO` struct of `SceneManager.h`: a tag and a GL texture handle. -/
structure TEXTURE_INFO where
  tag : String
  ID : Nat
deriving Repr, DecidableEq

/-- Result of a successful `stbi_load` call: the out-parameters `width`,
`height`, `colorChannels`. -/
structure ImageData where
  width : Int
  height : Int
  channels : Int
deriving Repr, DecidableEq

/-!
### Texture registry: `CreateGLTexture`, `BindGLTextures`, `FindTextureSlot`
-/

/-- Embedding of `SceneManager::CreateGLTexture`.  The decode outcome of
`stbi_load(filename, ...)` is the `image` argument (`none` models a failed
decode), and `textureID` is the handle produced by `glGenTextures`.  Returns
the C++ return value, the updated `m_textureIDs` prefix, and the lines printed
to `std::cout`. -/
def CreateGLTexture (filename : String) (image : Option ImageData)
    (textureID : Nat) (tag : String) (m_textureIDs : List TEXTURE_INFO) :
    Bool × List TEXTURE_INFO × List String :=
  match image with
  | some img =>
    let loadedLine := "Successfully loaded image:" ++ filename ++ ", width:" ++
      toString img.width ++ ", height:" ++ toString img.height ++
      ", channels:" ++ toString img.channels
    if img.channels = 3 then
      (true, m_textureIDs ++ [⟨tag, textureID⟩], [loadedLine])
    else if img.channels = 4 then
      (true, m_textureIDs ++ [⟨tag, textureID⟩], [loadedLine])
    else
      (false, m_textureIDs,
        [loadedLine,
         "Not implemented to handle image with " ++ toString img.channels ++ " channels"])
  | none => (false, m_textureIDs, ["Could not load image:" ++ filename])

/-- One pass of the `for` loop in `SceneManager::BindGLTextures`: starting at
texture unit `i`, bind each remaining registry entry's handle to consecutive
units.  `bound` is the GL binding state (texture unit ↦ bound 2D texture). -/
def bindLoop : List TEXTURE_INFO → Nat → (Nat → Nat) → Nat → Nat
  | [], _, bound => bound
  | e :: rest, i, bound =>
      bindLoop rest (i + 1) (fun unit => if unit = i then e.ID else bound unit)

/-- Embedding of `SceneManager::BindGLTextures`: binds entry `i` of the
registry to texture unit `i`, for `i < m_loadedTextures`. -/
def BindGLTextures (m_textureIDs : List TEXTURE_INFO) (bound : Nat → Nat) :
    Nat → Nat :=
  bindLoop m_textureIDs 0 bound

/-- The `while` loop of `SceneManager::FindTextureSlot`, with `index` the
current loop counter. -/
def findSlotAux (tag : String) : List TEXTURE_INFO → Int → Int
  | [], _ => -1
  | e :: rest, index =>
      if e.tag = tag then index else findSlotAux tag rest (index + 1)

/-- Embedding of `SceneManager::FindTextureSlot`: the index of the first
registry entry whose tag matches, or the initial value `-1` if none does. -/
def FindTextureSlot (m_textureIDs : List TEXTURE_INFO) (tag : String) : Int :=
  findSlotAux tag m_textureIDs 0

/-!
### Material registry: `FindMaterial`, `DefineObjectMaterials`
-/

/-- The `while` loop of `SceneManager::FindMaterial`: on the first entry whose
tag matches, the five material fields (not the tag) are copied into the
out-parameter `material`; otherwise `material` keeps its incoming value. -/
def findMaterialLoop (tag : String) (material : OBJECT_MATERIAL) :
    List OBJECT_MATERIAL → OBJECT_MATERIAL
  | [] => material
  | m :: rest =>
      if m.tag = tag then
        { material with
          ambientColor := m.ambientColor
          ambientStrength := m.ambientStrength
          diffuseColor := m.diffuseColor
          specularColor := m.specularColor
          shininess := m.shininess }
      else findMaterialLoop tag material rest

/-- Embedding of `SceneManager::FindMaterial`.  Faithful to the source: the
function returns `false` only when `m_objectMaterials` is empty, and otherwise
returns `true` unconditionally — the loop's `bFound` flag is not consulted by
the final `return(true)` statement. -/
def FindMaterial (m_objectMaterials : List OBJECT_MATERIAL) (tag : String)
    (material : OBJECT_MATERIAL) : Bool × OBJECT_MATERIAL :=
  if m_objectMaterials.length = 0 then
    (false, material)
  else
    (true, findMaterialLoop tag material m_objectMaterials)

/-- Embedding of `SceneManager::DefineObjectMaterials`: pushes the five
materials onto `m_objectMaterials` in source order. -/
def DefineObjectMaterials (m_objectMaterials : List OBJECT_MATERIAL) :
    List OBJECT_MATERIAL :=
  let shinyMaterial : OBJECT_MATERIAL :=
    { ambientColor := (0.3, 0.3, 0.3)
      ambientStrength := 0.7
      diffuseColor := (0.8, 0.7, 0.2)
      specularColor := (0.5, 0.5, 0.5)
      shininess := 50
      tag := "shiny" }
  let shinyishMaterial : OBJECT_MATERIAL :=
    { ambientColor := (0.3, 0.3, 0.3)
      ambientStrength := 0.5
      diffuseColor := (0.8, 0.7, 0.2)
      specularColor := (0.5, 0.5, 0.5)
      shininess := 25
      tag := "shinyish" }
  let porcelainMaterial : OBJECT_MATERIAL :=
    { ambientColor := (0.3, 0.3, 0.3)
      ambientStrength := 0.5
      diffuseColor := (0.8, 0.7, 0.2)
      specularColor := (0.5, 0.5, 0.5)
      shininess := 16
      tag := "porcelaine" }
  let dullMaterial : OBJECT_MATERIAL :=
    { ambientColor := (0.3, 0.3, 0.3)
      ambientStrength := 0.6
      diffuseColor := (0.8, 0.7, 0.2)
      specularColor := (0.5, 0.5, 0.5)
      shininess := 1
      tag := "dull" }
  let voidMaterial : OBJECT_MATERIAL :=
    { ambientColor := (0, 0, 0)
      ambientStrength := 0
      diffuseColor := (0, 0, 0)
      specularColor := (0, 0, 0)
      shininess := 0
      tag := "void" }
  m_objectMaterials ++
    [shinyMaterial, shinyishMaterial, porcelainMaterial, dullMaterial, voidMaterial]

/-!
### glm transform matrices and `SetTransformations`
-/

/-- The real-analytic operations a `glm` transform needs, abstracted so that
every definition stays computable; theorems instantiate `R := ℝ` with
`Real.pi`, `Real.cos`, `Real.sin`. -/
structure RealOps (R : Type) where
  pi : R
  cos : R → R
  sin : R → R

variable {R : Type} [Field R]

/-- Model of `glm::radians`: degrees times π over 180. -/
def glmRadians (ops : RealOps R) (degrees : R) : R :=
  degrees * (ops.pi / 180)

/-- Model of `glm::scale(v)`: the homogeneous scaling matrix. -/
def glmScale (v : R × R × R) : Matrix (Fin 4) (Fin 4) R :=
  !![v.1, 0, 0, 0;
     0, v.2.1, 0, 0;
     0, 0, v.2.2, 0;
     0, 0, 0, 1]

/-- Model of `glm::translate(v)`: the homogeneous translation matrix. -/
def glmTranslate (v : R × R × R) : Matrix (Fin 4) (Fin 4) R :=
  !![1, 0, 0, v.1;
     0, 1, 0, v.2.1;
     0, 0, 1, v.2.2;
     0, 0, 0, 1]

/-- Model of `glm::rotate(angle, axis)` for a unit `axis` (the source only
passes the unit axes (1,0,0), (0,1,0), (0,0,1), on which glm's internal
normalization is the identity): the homogeneous Rodrigues rotation matrix that
glm builds from `cos angle` and `sin angle`. -/
def glmRotate (ops : RealOps R) (angle : R) (axis : R × R × R) :
    Matrix (Fin 4) (Fin 4) R :=
  let c := ops.cos angle
  let s := ops.sin angle
  let x := axis.1
  let y := axis.2.1
  let z := axis.2.2
  !![c + (1 - c) * x * x, (1 - c) * x * y - s * z, (1 - c) * x * z + s * y, 0;
     (1 - c) * x * y + s * z, c + (1 - c) * y * y, (1 - c) * y * z - s * x, 0;
     (1 - c) * x * z - s * y, (1 - c) * y * z + s * x, c + (1 - c) * z * z, 0;
     0, 0, 0, 1]

/-- The textbook rotation matrix about the X axis, as the specification
describes `RotateX`. -/
def rotationXMatrix (ops : RealOps R) (angle : R) : Matrix (Fin 4) (Fin 4) R :=
  !![1, 0, 0, 0;
     0, ops.cos angle, -ops.sin angle, 0;
     0, ops.sin angle, ops.cos angle, 0;
     0, 0, 0, 1]

/-- The textbook rotation matrix about the Y axis, as the specification
describes `RotateY`. -/
def rotationYMatrix (ops : RealOps R) (angle : R) : Matrix (Fin 4) (Fin 4) R :=
  !![ops.cos angle, 0, ops.sin angle, 0;
     0, 1, 0, 0;
     -ops.sin angle, 0, ops.cos angle, 0;
     0, 0, 0, 1]

/-- The textbook rotation matrix about the Z axis, as the specification
describes `RotateZ`. -/
def rotationZMatrix (ops : RealOps R) (angle : R) : Matrix (Fin 4) (Fin 4) R :=
  !![ops.cos angle, -ops.sin angle, 0, 0;
     ops.sin angle, ops.cos angle, 0, 0;
     0, 0, 1, 0;
     0, 0, 0, 1]

/-- The matrix computed by the body of `SceneManager::SetTransformations`,
following the source line by line. -/
def setTransformationsMatrix (ops : RealOps R) (scaleXYZ : R × R × R)
    (XrotationDegrees YrotationDegrees ZrotationDegrees : R)
    (positionXYZ : R × R × R) : Matrix (Fin 4) (Fin 4) R :=
  let scale := glmScale scaleXYZ
  let rotationX := glmRotate ops (glmRadians ops XrotationDegrees) (1, 0, 0)
  let rotationY := glmRotate ops (glmRadians ops YrotationDegrees) (0, 1, 0)
  let rotationZ := glmRotate ops (glmRadians ops ZrotationDegrees) (0, 0, 1)
  let translation := glmTranslate positionXYZ
  translation * rotationX * rotationY * rotationZ * scale

/-!
### Shader uniform state and the setter methods
-/

/-- The shader uniforms that `SceneManager`'s setters write: `model`,
`objectColor`, `bUseTexture`, `objectTexture`, `UVscale` and the five
`material.*` fields. -/
structure ShaderUniforms (R : Type) where
  model : Matrix (Fin 4) (Fin 4) R
  objectColor : Vec4q
  bUseTexture : Bool
  objectTexture : Int
  UVscale : ℚ × ℚ
  materialAmbientColor : Vec3q
  materialAmbientStrength : ℚ
  materialDiffuseColor : Vec3q
  materialSpecularColor : Vec3q
  materialShininess : ℚ

/-- The `SceneManager` state the claims are about: the texture registry
(`m_textureIDs` prefix of length `m_loadedTextures`), the material catalog
`m_objectMaterials`, the `lightPositions` member, the shader uniforms, and the
trace of meshes drawn so far. -/
structure SceneState (R : Type) where
  textureIDs : List TEXTURE_INFO
  objectMaterials : List OBJECT_MATERIAL
  lightPositions : Fin 4 → R × R × R
  uniforms : ShaderUniforms R
  drawn : List String

/-- Embedding of `SceneManager::SetTransformations`: writes the computed
matrix to the `model` uniform. -/
def SetTransformations (ops : RealOps R) (scaleXYZ : R × R × R)
    (XrotationDegrees YrotationDegrees ZrotationDegrees : R)
    (positionXYZ : R × R × R) (st : SceneState R) : SceneState R :=
  { st with uniforms := { st.uniforms with
      model := setTransformationsMatrix ops scaleXYZ XrotationDegrees
        YrotationDegrees ZrotationDegrees positionXYZ } }

/-- Embedding of `SceneManager::SetShaderColor`: clears `bUseTexture` and
writes `objectColor`. -/
def SetShaderColor (redColorValue greenColorValue blueColorValue alphaValue : ℚ)
    (st : SceneState R) : SceneState R :=
  { st with uniforms := { st.uniforms with
      bUseTexture := false
      objectColor := (redColorValue, greenColorValue, blueColorValue, alphaValue) } }

/-- Embedding of `SceneManager::SetShaderTexture`: sets `bUseTexture` and
writes the slot found by `FindTextureSlot` (the local is initialized to `-1`
and then overwritten by the call, so the written value is the call's result). -/
def SetShaderTexture (textureTag : String) (st : SceneState R) : SceneState R :=
  { st with uniforms := { st.uniforms with
      bUseTexture := true
      objectTexture := FindTextureSlot st.textureIDs textureTag } }

/-- Embedding of `SceneManager::SetTextureUVScale`. -/
def SetTextureUVScale (u v : ℚ) (st : SceneState R) : SceneState R :=
  { st with uniforms := { st.uniforms with UVscale := (u, v) } }

/-- Embedding of `SceneManager::SetShaderMaterial`.  The local
`OBJECT_MATERIAL material;` is default-initialized in C++, so its value is
indeterminate; it is modelled by the explicit argument `junk`. -/
def SetShaderMaterial (junk : OBJECT_MATERIAL) (materialTag : String)
    (st : SceneState R) : SceneState R :=
  if st.objectMaterials.length > 0 then
    let res := FindMaterial st.objectMaterials materialTag junk
    if res.1 = true then
      { st with uniforms := { st.uniforms with
          materialAmbientColor := res.2.ambientColor
          materialAmbientStrength := res.2.ambientStrength
          materialDiffuseColor := res.2.diffuseColor
          materialSpecularColor := res.2.specularColor
          materialShininess := res.2.shininess } }
    else st
  else st

/-- A call `m_basicMeshes->Draw...Mesh()`, recorded in the draw trace. -/
def DrawMesh (name : String) (st : SceneState R) : SceneState R :=
  { st with drawn := st.drawn ++ [name] }

/-!
### Scene-preparation call trace: `PrepareScene`, `LoadSceneTextures`
-/

/-- The externally visible operations `PrepareScene` performs, in order. -/
inductive SceneEvent where
  | setupLights : SceneEvent
  | defineMaterials : SceneEvent
  | registerTexture (path : String) (tag : String) : SceneEvent
  | bindAll : SceneEvent
  | loadMesh (name : String) : SceneEvent
deriving Repr, DecidableEq

/-- Trace of `SceneManager::LoadSceneTextures`: one `CreateGLTexture` call per
source statement, in source order, then the single `BindGLTextures` call. -/
def LoadSceneTexturesEvents : List SceneEvent :=
  [SceneEvent.registerTexture "../../Utilities/textures/metal_table.jpg" "metal_table",
   SceneEvent.registerTexture "../../Utilities/textures/blue_vase.jpg" "blue_vase",
   SceneEvent.registerTexture "../../Utilities/textures/blue_vase3.jpg" "blue_vase3",
   SceneEvent.registerTexture "../../Utilities/textures/tiger_wood.jpg" "tiger_wood",
   SceneEvent.registerTexture "../../Utilities/textures/pink_matte.jpg" "pink_matte",
   SceneEvent.registerTexture "../../Utilities/textures/pink_matte2.jpg" "pink_matte2",
   SceneEvent.registerTexture "../../Utilities/textures/ruby4.jpg" "ruby4",
   SceneEvent.registerTexture "../../Utilities/textures/ruby6.jpg" "ruby6",
   SceneEvent.registerTexture "../../Utilities/textures/ruby8.jpg" "ruby8",
   SceneEvent.registerTexture "../../Utilities/textures/ruby9.jpg" "ruby9",
   SceneEvent.registerTexture "../../Utilities/textures/trash1.jpg" "trash1",
   SceneEvent.registerTexture "../../Utilities/textures/can_skin.jpg" "can_skin",
   SceneEvent.registerTexture "../../Utilities/textures/matte_rubber.jpg" "matte_rubber",
   SceneEvent.registerTexture "../../Utilities/textures/porcelain_vase.jpg" "porcelain_vase",
   SceneEvent.bindAll]

/-- Trace of `SceneManager::PrepareScene`: light setup, material definition,
texture loading (with its bind), then the nine mesh-load requests. -/
def PrepareSceneEvents : List SceneEvent :=
  [SceneEvent.setupLights, SceneEvent.defineMaterials] ++
  LoadSceneTexturesEvents ++
  [SceneEvent.loadMesh "box", SceneEvent.loadMesh "plane",
   SceneEvent.loadMesh "cylinder", SceneEvent.loadMesh "cone",
   SceneEvent.loadMesh "prism", SceneEvent.loadMesh "pyramid4",
   SceneEvent.loadMesh "sphere", SceneEvent.loadMesh "taperedCylinder",
   SceneEvent.loadMesh "torus"]

/-- Tests whether an event is a texture registration. -/
def SceneEvent.isRegisterTexture : SceneEvent → Bool
  | .registerTexture _ _ => true
  | _ => false

/-- Tests whether an event is the `BindGLTextures` call. -/
def SceneEvent.isBindAll : SceneEvent → Bool
  | .bindAll => true
  | _ => false

/-- Tests whether an event is a mesh-load request. -/
def SceneEvent.isLoadMesh : SceneEvent → Bool
  | .loadMesh _ => true
  | _ => false

/-- The tag/file pairs the texture-loading pass registers, in order. -/
def sceneTexturePairs : List (String × String) :=
  [("../../Utilities/textures/metal_table.jpg", "metal_table"),
   ("../../Utilities/textures/blue_vase.jpg", "blue_vase"),
   ("../../Utilities/textures/blue_vase3.jpg", "blue_vase3"),
   ("../../Utilities/textures/tiger_wood.jpg", "tiger_wood"),
   ("../../Utilities/textures/pink_matte.jpg", "pink_matte"),
   ("../../Utilities/textures/pink_matte2.jpg", "pink_matte2"),
   ("../../Utilities/textures/ruby4.jpg", "ruby4"),
   ("../../Utilities/textures/ruby6.jpg", "ruby6"),
   ("../../Utilities/textures/ruby8.jpg", "ruby8"),
   ("../../Utilities/textures/ruby9.jpg", "ruby9"),
   ("../../Utilities/textures/trash1.jpg", "trash1"),
   ("../../Utilities/textures/can_skin.jpg", "can_skin"),
   ("../../Utilities/textures/matte_rubber.jpg", "matte_rubber"),
   ("../../Utilities/textures/porcelain_vase.jpg", "porcelain_vase")]

/-- The mesh names `PrepareScene` asks the shape-mesh capability to load. -/
def sceneMeshNames : List String :=
  ["box", "plane", "cylinder", "cone", "prism", "pyramid4", "sphere",
   "taperedCylinder", "torus"]

/-!
### `RenderScene`

The render pass is a straight-line sequence of setter calls and mesh draws.
The C++ locals `XrotationDegrees` / `YrotationDegrees` / `ZrotationDegrees`
are mutated between blocks and keep their values across blocks; the embedding
mirrors each assignment by shadowing, and omits statements that are commented
out in the source.
-/

/-- The color table of the light-position cubes at the end of `RenderScene`. -/
def cubeColors : Fin 4 → Vec3q :=
  ![(1, 0, 0), (0, 1, 0), (0, 0, 1), (1, 1, 0)]

/-- One iteration of the light-cube loop at the end of `RenderScene`. -/
def renderLightCube (ops : RealOps R) (junk : OBJECT_MATERIAL)
    (XrotationDegrees YrotationDegrees ZrotationDegrees : R) (i : Fin 4)
    (st : SceneState R) : SceneState R :=
  let st := SetTransformations ops (15, 15, 15) XrotationDegrees
    YrotationDegrees ZrotationDegrees (st.lightPositions i) st
  let st := SetShaderMaterial junk "porcelaine" st
  let st := SetShaderColor (cubeColors i).1 (cubeColors i).2.1
    (cubeColors i).2.2 1 st
  DrawMesh "box" st

/-- Embedding of `SceneManager::RenderScene`, with `junk` modelling the
indeterminate local `OBJECT_MATERIAL material;` inside each
`SetShaderMaterial` call. -/
def RenderScene (ops : RealOps R) (junk : OBJECT_MATERIAL)
    (st0 : SceneState R) : SceneState R :=
  let XrotationDegrees : R := 0
  let YrotationDegrees : R := 0
  let ZrotationDegrees : R := 0
  -- floor plane
  let st := SetTransformations ops (12, 1, 8) XrotationDegrees
    YrotationDegrees ZrotationDegrees (2.5, 0, -12) st0
  let st := SetShaderTexture "metal_table" st
  let st := SetShaderMaterial junk "dull" st
  let st := DrawMesh "plane" st
  -- sphere: vase body
  let st := SetTransformations ops (2, 2, 2) XrotationDegrees
    YrotationDegrees ZrotationDegrees (0, 2, -8.4) st
  let st := SetShaderMaterial junk "porcelaine" st
  let st := SetShaderTexture "blue_vase" st
  let st := DrawMesh "sphere" st
  -- cylinder: vase neck
  let st := SetTransformations ops (0.7, 3, 0.7) XrotationDegrees
    YrotationDegrees ZrotationDegrees (0, 2, -8.4) st
  let st := SetShaderMaterial junk "porcelaine" st
  let st := SetShaderTexture "blue_vase3" st
  let st := DrawMesh "cylinder" st
  -- cylinder: vase hole
  let st := SetTransformations ops (0.7, 0.2, 0.7) XrotationDegrees
    YrotationDegrees ZrotationDegrees (0, 4.9, -8.4) st
  let st := SetShaderMaterial junk "void" st
  let st := SetShaderColor 0 0 0 1 st
  let st := DrawMesh "cylinder" st
  -- torus 1: top lip
  let XrotationDegrees : R := 90
  let st := SetTransformations ops (0.8, 0.8, 0.8) XrotationDegrees
    YrotationDegrees ZrotationDegrees (0, 5, -8.4) st
  let st := SetShaderMaterial junk "porcelaine" st
  let st := SetShaderTexture "blue_vase3" st
  let st := DrawMesh "torus" st
  -- torus 2: bottom edge
  let XrotationDegrees : R := 90
  let st := SetTransformations ops (0.6, 1, 0.6) XrotationDegrees
    YrotationDegrees ZrotationDegrees (0, 0.14, -8.85) st
  let st := SetShaderMaterial junk "porcelaine" st
  let st := SetShaderTexture "blue_vase3" st
  let st := DrawMesh "torus" st
  -- cylinder: jug body
  let XrotationDegrees : R := 180
  let st := SetTransformations ops (2.5, 5, 2.5) XrotationDegrees
    YrotationDegrees ZrotationDegrees (-5, 5, -12.4) st
  let st := SetShaderMaterial junk "shiny" st
  let st := SetShaderTexture "tiger_wood" st
  let st := DrawMesh "cylinder" st
  -- tapered cylinder: slanted connector
  let XrotationDegrees : R := 0
  let st := SetTransformations ops (2.5, 0.6, 2.5) XrotationDegrees
    YrotationDegrees ZrotationDegrees (-5, 5, -12.4) st
  let st := SetShaderMaterial junk "porcelaine" st
  let st := SetShaderTexture "tiger_wood" st
  let st := DrawMesh "taperedCylinder" st
  -- cylinder: top grey ring
  let XrotationDegrees : R := 0
  let st := SetTransformations ops (1.9, 1.5, 1.9) XrotationDegrees
    YrotationDegrees ZrotationDegrees (-5, 4.3, -12.4) st
  let st := SetShaderMaterial junk "dull" st
  let st := SetShaderColor 0.5 0.5 0.5 1 st
  let st := DrawMesh "cylinder" st
  -- cylinder: jug black hole
  let XrotationDegrees : R := 0
  let st := SetTransformations ops (1.8, 1.5, 1.8) XrotationDegrees
    YrotationDegrees ZrotationDegrees (-5, 4.32, -12.4) st
  let st := SetShaderMaterial junk "void" st
  let st := SetShaderColor 0 0 0 1 st
  let st := DrawMesh "cylinder" st
  -- torus: lower body ring
  let XrotationDegrees : R := 90
  let st := SetTransformations ops (2.15, 2.15, 0.5) XrotationDegrees
    YrotationDegrees ZrotationDegrees (-5, 0.5, -12.4) st
  let st := SetShaderMaterial junk "dull" st
  let st := SetShaderColor 0.1 0.1 0.1 1 st
  let st := DrawMesh "torus" st
  -- tapered cylinder: trash can body
  let XrotationDegrees : R := 180
  let YrotationDegrees : R := -90
  let st := SetTransformations ops (3.5, 5.4, 3.5) XrotationDegrees
    YrotationDegrees ZrotationDegrees (4, 5.2, -12.4) st
  let st := SetShaderMaterial junk "shinyish" st
  let st := SetShaderTexture "can_skin" st
  let st := DrawMesh "taperedCylinder" st
  -- cylinder: trash can black hole
  let XrotationDegrees : R := 180
  let YrotationDegrees : R := -90
  let st := SetTransformations ops (3.2, 0.2, 3.2) XrotationDegrees
    YrotationDegrees ZrotationDegrees (4, 5.23, -12.4) st
  let st := SetShaderMaterial junk "void" st
  let st := SetShaderColor 0 0 0 1 st
  let st := DrawMesh "cylinder" st
  -- torus: trash can top ring
  let XrotationDegrees : R := 90
  let YrotationDegrees : R := 0
  let st := SetTransformations ops (2.96, 2.96, 0.5) XrotationDegrees
    YrotationDegrees ZrotationDegrees (4, 5.1, -12.4) st
  let st := SetShaderMaterial junk "shiny" st
  let st := SetShaderColor 0.1 0.1 0.1 1 st
  let st := DrawMesh "torus" st
  -- torus: trash can bottom ring
  let XrotationDegrees : R := 90
  let YrotationDegrees : R := 0
  let st := SetTransformations ops (1.6, 1.6, 0.5) XrotationDegrees
    YrotationDegrees ZrotationDegrees (4, 0.08, -12.4) st
  let st := SetShaderMaterial junk "shiny" st
  let st := SetShaderColor 0.1 0.1 0.1 1 st
  let st := DrawMesh "torus" st
  -- cylinder: weight handle bar
  let ZrotationDegrees : R := -90
  let st := SetTransformations ops (0.6, 5, 0.6) XrotationDegrees
    YrotationDegrees ZrotationDegrees (4, 0.8, -6.4) st
  let st := SetShaderMaterial junk "dull" st
  let st := SetShaderTexture "pink_matte" st
  let st := DrawMesh "cylinder" st
  -- box: left side weight
  let ZrotationDegrees : R := -90
  let st := SetTransformations ops (1.1, 1, 1.6) XrotationDegrees
    YrotationDegrees ZrotationDegrees (3.5, 0.8, -6.4) st
  let st := SetShaderMaterial junk "dull" st
  let st := SetShaderTexture "pink_matte2" st
  let st := DrawMesh "box" st
  -- box: right side weight
  let ZrotationDegrees : R := -90
  let st := SetTransformations ops (1.1, 1, 1.6) XrotationDegrees
    YrotationDegrees ZrotationDegrees (8.5, 0.8, -6.4) st
  let st := SetShaderMaterial junk "dull" st
  let st := SetShaderTexture "pink_matte2" st
  let st := DrawMesh "box" st
  -- prism 1: right side weight
  let ZrotationDegrees : R := 90
  let XrotationDegrees : R := 0
  let st := SetTransformations ops (1.6, 1, 0.4) XrotationDegrees
    YrotationDegrees ZrotationDegrees (8.5, 0.8, -5.65) st
  let st := SetShaderMaterial junk "dull" st
  let st := SetShaderTexture "pink_matte2" st
  let st := DrawMesh "prism" st
  -- prism 2: right side weight
  let ZrotationDegrees : R := 90
  let XrotationDegrees : R := 180
  let st := SetTransformations ops (1.6, 1, 0.4) XrotationDegrees
    YrotationDegrees ZrotationDegrees (8.5, 0.8, -7.15) st
  let st := SetShaderMaterial junk "dull" st
  let st := SetShaderTexture "pink_matte2" st
  let st := DrawMesh "prism" st
  -- prism: left side weight
  let ZrotationDegrees : R := 90
  let XrotationDegrees : R := 0
  let st := SetTransformations ops (1.6, 1, 0.4) XrotationDegrees
    YrotationDegrees ZrotationDegrees (3.5, 0.8, -5.65) st
  let st := SetShaderMaterial junk "dull" st
  let st := SetShaderTexture "pink_matte2" st
  let st := DrawMesh "prism" st
  -- prism: left side weight, second
  let ZrotationDegrees : R := 90
  let XrotationDegrees : R := 180
  let st := SetTransformations ops (1.6, 1, 0.4) XrotationDegrees
    YrotationDegrees ZrotationDegrees (3.5, 0.8, -7.15) st
  let st := SetShaderMaterial junk "dull" st
  let st := SetShaderTexture "pink_matte2" st
  let st := DrawMesh "prism" st
  -- box: bottom half frame, bottom split
  let st := SetTransformations ops (0.2, 5, 2) XrotationDegrees
    YrotationDegrees ZrotationDegrees (10, 0.1, -12.4) st
  let st := SetShaderMaterial junk "shiny" st
  let st := SetShaderTexture "ruby8" st
  let st := DrawMesh "box" st
  -- box: bottom half, hidden inside lower half
  let st := SetTransformations ops (0.2, 4.9, 1.9) XrotationDegrees
    YrotationDegrees ZrotationDegrees (10, 0.15, -12.4) st
  let st := SetShaderMaterial junk "shiny" st
  let st := SetShaderTexture "ruby6" st
  let st := DrawMesh "box" st
  -- box: bottom half frame, top split
  let st := SetTransformations ops (0.15, 5, 2) XrotationDegrees
    YrotationDegrees ZrotationDegrees (10, 0.3, -12.4) st
  let st := SetShaderMaterial junk "shiny" st
  let st := SetShaderTexture "ruby6" st
  let st := DrawMesh "box" st
  -- box: bottom screen
  let st := SetTransformations ops (0.2, 2.5, 1.4) XrotationDegrees
    YrotationDegrees ZrotationDegrees (10, 0.3, -12.2) st
  let st := SetShaderMaterial junk "shiny" st
  let st := SetShaderTexture "ruby9" st
  let st := DrawMesh "box" st
  -- box: bottom screen button box
  let st := SetTransformations ops (0.2, 2.5, 0.2) XrotationDegrees
    YrotationDegrees ZrotationDegrees (10, 0.32, -11.55) st
  let st := SetShaderMaterial junk "shiny" st
  let st := SetShaderColor 0.5 0.5 0.5 1 st
  let st := DrawMesh "box" st
  -- box: top frame
  let XrotationDegrees : R := 90
  let st := SetTransformations ops (0.2, 5, 2) XrotationDegrees
    YrotationDegrees ZrotationDegrees (10, 1.4, -13.33) st
  let st := SetShaderMaterial junk "shiny" st
  let st := SetShaderTexture "ruby8" st
  let st := DrawMesh "box" st
  -- box: top screen
  let XrotationDegrees : R := 90
  let st := SetTransformations ops (0.2, 3.2, 1.6) XrotationDegrees
    YrotationDegrees ZrotationDegrees (10, 1.2, -13.32) st
  let st := SetShaderMaterial junk "shiny" st
  let st := SetShaderTexture "ruby9" st
  let st := DrawMesh "box" st
  -- box: screen hinge
  let XrotationDegrees : R := 45
  let st := SetTransformations ops (0.2, 4, 0.25) XrotationDegrees
    YrotationDegrees ZrotationDegrees (10, 0.4, -13.28) st
  let st := SetShaderMaterial junk "shiny" st
  let st := SetShaderColor 0.5 0.5 0.5 1 st
  let st := DrawMesh "box" st
  -- cylinder: joystick holder
  let XrotationDegrees : R := 90
  let YrotationDegrees : R := 90
  let st := SetTransformations ops (0.35, 0.1, 0.35) XrotationDegrees
    YrotationDegrees ZrotationDegrees (8.15, 0.4, -12.6) st
  let st := SetShaderMaterial junk "porcelaine" st
  let st := SetShaderColor 0.5 0.5 0.5 1 st
  let st := DrawMesh "cylinder" st
  -- cylinder: joystick
  let YrotationDegrees : R := 90
  let st := SetTransformations ops (0.25, 0.1, 0.25) XrotationDegrees
    YrotationDegrees ZrotationDegrees (8.15, 0.45, -12.6) st
  let st := SetShaderMaterial junk "porcelaine" st
  let st := SetShaderTexture "ruby9" st
  let st := DrawMesh "cylinder" st
  -- box: D pad part 1
  let st := SetTransformations ops (0.5, 0.2, 0.15) XrotationDegrees
    YrotationDegrees ZrotationDegrees (8.15, 0.32, -11.8) st
  let st := SetShaderMaterial junk "porcelaine" st
  let st := SetShaderColor 0.5 0.5 0.5 1 st
  let st := DrawMesh "box" st
  -- box: D pad part 2
  let st := SetTransformations ops (0.15, 0.2, 0.5) XrotationDegrees
    YrotationDegrees ZrotationDegrees (8.15, 0.32, -11.8) st
  let st := SetShaderMaterial junk "porcelaine" st
  let st := SetShaderColor 0.5 0.5 0.5 1 st
  let st := DrawMesh "box" st
  -- box: home button
  let st := SetTransformations ops (0.15, 0.2, 0.15) XrotationDegrees
    YrotationDegrees ZrotationDegrees (11.5, 0.32, -11.6) st
  let st := SetShaderMaterial junk "shinyMaterial" st
  let st := SetShaderColor 0.5 0.5 0.5 1 st
  let st := DrawMesh "box" st
  -- cylinder: top circle button
  let YrotationDegrees : R := 90
  let st := SetTransformations ops (0.14, 0.1, 0.14) XrotationDegrees
    YrotationDegrees ZrotationDegrees (11.9, 0.4, -12.65) st
  let st := SetShaderMaterial junk "shinyMaterial" st
  let st := SetShaderColor 0.5 0.5 0.5 1 st
  let st := DrawMesh "cylinder" st
  -- cylinder: bottom circle button
  let YrotationDegrees : R := 90
  let st := SetTransformations ops (0.14, 0.1, 0.14) XrotationDegrees
    YrotationDegrees ZrotationDegrees (11.9, 0.4, -12.1) st
  let st := SetShaderMaterial junk "shinyMaterial" st
  let st := SetShaderColor 0.5 0.5 0.5 1 st
  let st := DrawMesh "cylinder" st
  -- cylinder: right circle button
  let YrotationDegrees : R := 90
  let st := SetTransformations ops (0.14, 0.1, 0.14) XrotationDegrees
    YrotationDegrees ZrotationDegrees (12.15, 0.4, -12.37) st
  let st := SetShaderMaterial junk "shinyMaterial" st
  let st := SetShaderColor 0.5 0.5 0.5 1 st
  let st := DrawMesh "cylinder" st
  -- cylinder: left circle button
  let YrotationDegrees : R := 90
  let st := SetTransformations ops (0.14, 0.1, 0.14) XrotationDegrees
    YrotationDegrees ZrotationDegrees (11.65, 0.4, -12.37) st
  let st := SetShaderMaterial junk "shinyMaterial" st
  let st := SetShaderColor 0.5 0.5 0.5 1 st
  let st := DrawMesh "cylinder" st
  -- light-position cubes
  (List.finRange 4).foldl
    (fun s i => renderLightCube ops junk XrotationDegrees YrotationDegrees
      ZrotationDegrees i s) st

/-!
### Registration sequences
-/

/-- One `CreateGLTexture` call's inputs: the file path, the decode outcome for
that path, the handle `glGenTextures` produces, and the tag. -/
structure RegInput where
  filename : String
  image : Option ImageData
  textureID : Nat
  tag : String
deriving Repr, DecidableEq

/-- Whether a registration input decodes with a supported channel count, i.e.
whether its `CreateGLTexture` call succeeds. -/
def succeeds (x : RegInput) : Bool :=
  match x.image with
  | some d => d.channels == 3 || d.channels == 4
  | none => false

/-- A sequence of `CreateGLTexture` calls, threading the registry. -/
def registerAll : List RegInput → List TEXTURE_INFO → List TEXTURE_INFO
  | [], t => t
  | x :: rest, t =>
      registerAll rest (CreateGLTexture x.filename x.image x.textureID x.tag t).2.1

/-- The registry entry a successful registration input produces. -/
def RegInput.toInfo (x : RegInput) : TEXTURE_INFO :=
  ⟨x.tag, x.textureID⟩

lemma registerAll_eq_map (inputs : List RegInput) (t : List TEXTURE_INFO)
    (h : ∀ x ∈ inputs, succeeds x = true) :
    registerAll inputs t = t ++ inputs.map RegInput.toInfo := by
  induction inputs generalizing t with
  | nil => simp [registerAll]
  | cons x rest ih =>
    have hx : succeeds x = true := h x (List.mem_cons_self x rest)
    have hrest : ∀ y ∈ rest, succeeds y = true :=
      fun y hy => h y (List.mem_cons_of_mem x hy)
    cases himg : x.image with
    | none => simp [succeeds, himg] at hx
    | some d =>
      have hch : d.channels = 3 ∨ d.channels = 4 := by
        have := hx
        simp [succeeds, himg] at this
        omega
      rcases hch with h3 | h4
      · simp [registerAll, CreateGLTexture, himg, h3, ih _ hrest, RegInput.toInfo]
      · have h43 : d.channels ≠ 3 := by omega
        simp [registerAll, CreateGLTexture, himg, h4, h43, ih _ hrest, RegInput.toInfo]

lemma findSlotAux_not_mem (tag : String) (entries : List TEXTURE_INFO)
    (h : tag ∉ entries.map TEXTURE_INFO.tag) :
    ∀ s : Int, findSlotAux tag entries s = -1 := by
  induction entries with
  | nil => intro s; rfl
  | cons e rest ih =>
    intro s
    have he : e.tag ≠ tag := fun heq => h (by simp [heq])
    have hrest : tag ∉ rest.map TEXTURE_INFO.tag := fun hm => h (by simp [hm])
    simp [findSlotAux, he, ih hrest]

lemma findSlotAux_nodup (tag : String) (entries : List TEXTURE_INFO) :
    ∀ (k : Nat) (hk : k < entries.length),
      (entries.get ⟨k, hk⟩).tag = tag →
      (entries.map TEXTURE_INFO.tag).Nodup →
      ∀ s : Int, findSlotAux tag entries s = s + k := by
  induction entries with
  | nil => intro k hk; simp at hk
  | cons e rest ih =>
    intro k hk htag hnd s
    rw [List.map_cons, List.nodup_cons] at hnd
    obtain ⟨hhead, htail⟩ := hnd
    by_cases he : e.tag = tag
    · have hk0 : k = 0 := by
        by_contra hne
        obtain ⟨j, rfl⟩ : ∃ j, k = j + 1 := ⟨k - 1, by omega⟩
        have hj : j < rest.length := by simpa using hk
        have hmem : tag ∈ rest.map TEXTURE_INFO.tag := by
          have hget : (rest.get ⟨j, hj⟩).tag = tag := htag
          exact hget ▸ List.mem_map_of_mem _ (rest.get_mem _ _)
        exact hhead (he ▸ hmem)
      subst hk0
      simp [findSlotAux, he]
    · have hk0 : k ≠ 0 := by
        intro h0
        subst h0
        exact he htag
      obtain ⟨j, rfl⟩ : ∃ j, k = j + 1 := ⟨k - 1, by omega⟩
      have hj : j < rest.length := by simpa using hk
      have hrec := ih j hj htag htail (s + 1)
      simp only [findSlotAux, if_neg he, hrec]
      push_cast
      ring

/-!
### `BindGLTextures` characterization
-/

lemma bindLoop_apply (entries : List TEXTURE_INFO) :
    ∀ (i : Nat) (bound : Nat → Nat) (u : Nat),
      bindLoop entries i bound u =
        if i ≤ u then ((entries[u - i]?).map TEXTURE_INFO.ID).getD (bound u)
        else bound u := by
  induction entries with
  | nil => intro i bound u; simp [bindLoop]
  | cons e rest ih =>
    intro i bound u
    rw [bindLoop, ih]
    rcases Nat.lt_trichotomy u i with h | h | h
    · have h1 : ¬ (i + 1 ≤ u) := by omega
      have h2 : ¬ (i ≤ u) := by omega
      have h3 : u ≠ i := by omega
      simp [h1, h2, h3]
    · subst h
      have h1 : ¬ (u + 1 ≤ u) := by omega
      simp [h1]
    · have h1 : i + 1 ≤ u := by omega
      have h2 : i ≤ u := by omega
      have h3 : u ≠ i := by omega
      have hui : u - i = (u - (i + 1)) + 1 := by omega
      rw [hui]
      simp only [if_pos h1, if_pos h2, List.getElem?_cons_succ]
      cases hrest : rest[u - (i + 1)]? with
      | none => simp [h3]
      | some v => simp

lemma BindGLTextures_apply (t : List TEXTURE_INFO) (bound : Nat → Nat)
    (u : Nat) :
    BindGLTextures t bound u = ((t[u]?).map TEXTURE_INFO.ID).getD (bound u) := by
  rw [BindGLTextures, bindLoop_apply]
  simp

/-!
### Rotation-matrix refinements
-/

lemma glmRotate_unitX (ops : RealOps R) (angle : R) :
    glmRotate ops angle (1, 0, 0) = rotationXMatrix ops angle := by
  ext i j
  fin_cases i <;> fin_cases j <;>
    simp [glmRotate, rotationXMatrix, Matrix.vecHead, Matrix.vecTail]

lemma glmRotate_unitY (ops : RealOps R) (angle : R) :
    glmRotate ops angle (0, 1, 0) = rotationYMatrix ops angle := by
  ext i j
  fin_cases i <;> fin_cases j <;>
    simp [glmRotate, rotationYMatrix, Matrix.vecHead, Matrix.vecTail]

lemma glmRotate_unitZ (ops : RealOps R) (angle : R) :
    glmRotate ops angle (0, 0, 1) = rotationZMatrix ops angle := by
  ext i j
  fin_cases i <;> fin_cases j <;>
    simp [glmRotate, rotationZMatrix, Matrix.vecHead, Matrix.vecTail]

lemma glmScale_one : glmScale ((1 : R), 1, 1) = 1 := by
  ext i j
  fin_cases i <;> fin_cases j <;>
    simp [glmScale, Matrix.one_apply, Matrix.vecHead, Matrix.vecTail]

lemma glmTranslate_zero : glmTranslate ((0 : R), 0, 0) = 1 := by
  ext i j
  fin_cases i <;> fin_cases j <;>
    simp [glmTranslate, Matrix.one_apply, Matrix.vecHead, Matrix.vecTail]

lemma rotationXMatrix_zero (ops : RealOps R) (hc : ops.cos 0 = 1)
    (hs : ops.sin 0 = 0) : rotationXMatrix ops 0 = 1 := by
  ext i j
  fin_cases i <;> fin_cases j <;>
    simp [rotationXMatrix, hc, hs, Matrix.one_apply, Matrix.vecHead,
      Matrix.vecTail]

lemma rotationYMatrix_zero (ops : RealOps R) (hc : ops.cos 0 = 1)
    (hs : ops.sin 0 = 0) : rotationYMatrix ops 0 = 1 := by
  ext i j
  fin_cases i <;> fin_cases j <;>
    simp [rotationYMatrix, hc, hs, Matrix.one_apply, Matrix.vecHead,
      Matrix.vecTail]

lemma rotationZMatrix_zero (ops : RealOps R) (hc : ops.cos 0 = 1)
    (hs : ops.sin 0 = 0) : rotationZMatrix ops 0 = 1 := by
  ext i j
  fin_cases i <;> fin_cases j <;>
    simp [rotationZMatrix, hc, hs, Matrix.one_apply, Matrix.vecHead,
      Matrix.vecTail]

lemma glmRadians_zero (ops : RealOps R) : glmRadians ops 0 = 0 := by
  simp [glmRadians]

/-!
### Registry preservation by the shader setters
-/

@[simp] lemma SetTransformations_textureIDs (ops : RealOps R) (s : R × R × R)
    (x y z : R) (p : R × R × R) (st : SceneState R) :
    (SetTransformations ops s x y z p st).textureIDs = st.textureIDs := rfl

@[simp] lemma SetTransformations_objectMaterials (ops : RealOps R)
    (s : R × R × R) (x y z : R) (p : R × R × R) (st : SceneState R) :
    (SetTransformations ops s x y z p st).objectMaterials = st.objectMaterials :=
  rfl

@[simp] lemma SetShaderColor_textureIDs (r g b a : ℚ) (st : SceneState R) :
    (SetShaderColor r g b a st).textureIDs = st.textureIDs := rfl

@[simp] lemma SetShaderColor_objectMaterials (r g b a : ℚ) (st : SceneState R) :
    (SetShaderColor r g b a st).objectMaterials = st.objectMaterials := rfl

@[simp] lemma SetShaderTexture_textureIDs (tag : String) (st : SceneState R) :
    (SetShaderTexture tag st).textureIDs = st.textureIDs := rfl

@[simp] lemma SetShaderTexture_objectMaterials (tag : String)
    (st : SceneState R) :
    (SetShaderTexture tag st).objectMaterials = st.objectMaterials := rfl

@[simp] lemma SetTextureUVScale_textureIDs (u v : ℚ) (st : SceneState R) :
    (SetTextureUVScale u v st).textureIDs = st.textureIDs := rfl

@[simp] lemma SetTextureUVScale_objectMaterials (u v : ℚ) (st : SceneState R) :
    (SetTextureUVScale u v st).objectMaterials = st.objectMaterials := rfl

@[simp] lemma SetShaderMaterial_textureIDs (junk : OBJECT_MATERIAL)
    (tag : String) (st : SceneState R) :
    (SetShaderMaterial junk tag st).textureIDs = st.textureIDs := by
  simp only [SetShaderMaterial]
  split
  · split <;> rfl
  · rfl

@[simp] lemma SetShaderMaterial_objectMaterials (junk : OBJECT_MATERIAL)
    (tag : String) (st : SceneState R) :
    (SetShaderMaterial junk tag st).objectMaterials = st.objectMaterials := by
  simp only [SetShaderMaterial]
  split
  · split <;> rfl
  · rfl

@[simp] lemma DrawMesh_textureIDs (name : String) (st : SceneState R) :
    (DrawMesh name st).textureIDs = st.textureIDs := rfl

@[simp] lemma DrawMesh_objectMaterials (name : String) (st : SceneState R) :
    (DrawMesh name st).objectMaterials = st.objectMaterials := rfl

@[simp] lemma renderLightCube_textureIDs (ops : RealOps R)
    (junk : OBJECT_MATERIAL) (x y z : R) (i : Fin 4) (st : SceneState R) :
    (renderLightCube ops junk x y z i st).textureIDs = st.textureIDs := by
  simp [renderLightCube]

@[simp] lemma renderLightCube_objectMaterials (ops : RealOps R)
    (junk : OBJECT_MATERIAL) (x y z : R) (i : Fin 4) (st : SceneState R) :
    (renderLightCube ops junk x y z i st).objectMaterials = st.objectMaterials := by
  simp [renderLightCube]

lemma foldl_renderLightCube_textureIDs (ops : RealOps R)
    (junk : OBJECT_MATERIAL) (x y z : R) (l : List (Fin 4))
    (st : SceneState R) :
    (l.foldl (fun s i => renderLightCube ops junk x y z i s) st).textureIDs =
      st.textureIDs := by
  induction l generalizing st with
  | nil => rfl
  | cons i rest ih => simp [ih]

lemma foldl_renderLightCube_objectMaterials (ops : RealOps R)
    (junk : OBJECT_MATERIAL) (x y z : R) (l : List (Fin 4))
    (st : SceneState R) :
    (l.foldl (fun s i => renderLightCube ops junk x y z i s) st).objectMaterials =
      st.objectMaterials := by
  induction l generalizing st with
  | nil => rfl
  | cons i rest ih => simp [ih]

/-!
### Concrete states used to exercise the theorems
-/

/-- A fixed value standing in for the indeterminate default-initialized
`OBJECT_MATERIAL material;` local. -/
def junkMaterial : OBJECT_MATERIAL :=
  { ambientStrength := 0
    ambientColor := (0, 0, 0)
    diffuseColor := (0, 0, 0)
    specularColor := (0, 0, 0)
    shininess := 0
    tag := "" }

/-- A concrete shader-uniform state in which the `shiny` material (shininess
50) was previously set. -/
def exampleUniforms : ShaderUniforms ℚ :=
  { model := 1
    objectColor := (0, 0, 0, 1)
    bUseTexture := false
    objectTexture := -1
    UVscale := (1, 1)
    materialAmbientColor := (0, 0, 0)
    materialAmbientStrength := 0
    materialDiffuseColor := (0, 0, 0)
    materialSpecularColor := (0, 0, 0)
    materialShininess := 50 }

/-- A concrete scene state: two textures registered, the five scene materials
defined, `shiny`'s shininess already in the uniforms. -/
def exampleState : SceneState ℚ :=
  { textureIDs := [⟨"metal_table", 1⟩, ⟨"blue_vase", 2⟩]
    objectMaterials := DefineObjectMaterials []
    lightPositions := fun _ => (0, 0, 0)
    uniforms := exampleUniforms
    drawn := [] }

/-!
### Claim theorems
-/

/-- Claim C1 (code bug evidence): with the seeded material catalog,
`FindMaterial` on a tag that is not in the catalog still returns `true`, so
`SetShaderMaterial` overwrites the previously-set material uniforms with the
fields of the default-initialized local — here the shininess uniform drops
from the previously-set 50 to the indeterminate local's 0, contradicting the
claim that the uniforms are left unchanged. -/
theorem C1_missing_material_tag_overwrites_uniforms :
    "nonexistent-tag" ∉ (DefineObjectMaterials []).map OBJECT_MATERIAL.tag ∧
    (FindMaterial (DefineObjectMaterials []) "nonexistent-tag" junkMaterial).1
      = true ∧
    (SetShaderMaterial junkMaterial "nonexistent-tag"
      exampleState).uniforms.materialShininess = 0 ∧
    exampleState.uniforms.materialShininess = 50 := by
  decide

/-- Claim C2: starting from the empty registry, a sequence of successful
`CreateGLTexture` registrations with pairwise-distinct tags (at most 16, the
capacity of `m_textureIDs`, beyond which the source indexes out of bounds)
stores the k-th tag at array index k, so its texture-unit slot is its
zero-based registration index, lies in [0,16), and is returned exactly by
`FindTextureSlot`. -/
theorem C2_registration_slots (inputs : List RegInput)
    (hsucc : ∀ x ∈ inputs, succeeds x = true)
    (hnodup : (inputs.map RegInput.tag).Nodup)
    (hcap : inputs.length ≤ 16) :
    (registerAll inputs []).length = inputs.length ∧
    ∀ k (hk : k < inputs.length),
      (registerAll inputs [])[k]? =
        some ⟨inputs[k].tag, inputs[k].textureID⟩ ∧
      FindTextureSlot (registerAll inputs []) inputs[k].tag = (k : Int) ∧
      (k : Int) < 16 := by
  have hreg : registerAll inputs [] = inputs.map RegInput.toInfo := by
    simpa using registerAll_eq_map inputs [] hsucc
  constructor
  · rw [hreg]
    simp
  · intro k hk
    have hk2 : k < (inputs.map RegInput.toInfo).length := by simpa using hk
    refine ⟨?_, ?_, by omega⟩
    · rw [hreg, List.getElem?_eq_getElem hk2]
      simp [RegInput.toInfo]
    · rw [hreg, FindTextureSlot]
      have hmap : (inputs.map RegInput.toInfo).map TEXTURE_INFO.tag =
          inputs.map RegInput.tag := by
        rw [List.map_map]
        rfl
      have hget : ((inputs.map RegInput.toInfo).get ⟨k, hk2⟩).tag =
          inputs[k].tag := by
        simp [RegInput.toInfo]
      have hrun := findSlotAux_nodup (inputs[k].tag)
        (inputs.map RegInput.toInfo) k hk2 hget (by rw [hmap]; exact hnodup) 0
      rw [hrun]
      omega

/-- Claim C2 witness: two successful registrations with distinct tags; the
second tag gets slot 1. -/
theorem C2_registration_slots_witness :
    (∀ x ∈ [(⟨"a.jpg", some ⟨2, 2, 3⟩, 7, "ta"⟩ : RegInput),
            ⟨"b.jpg", some ⟨2, 2, 4⟩, 9, "tb"⟩], succeeds x = true) ∧
    (([(⟨"a.jpg", some ⟨2, 2, 3⟩, 7, "ta"⟩ : RegInput),
       ⟨"b.jpg", some ⟨2, 2, 4⟩, 9, "tb"⟩]).map RegInput.tag).Nodup ∧
    FindTextureSlot
      (registerAll [(⟨"a.jpg", some ⟨2, 2, 3⟩, 7, "ta"⟩ : RegInput),
                    ⟨"b.jpg", some ⟨2, 2, 4⟩, 9, "tb"⟩] []) "tb" = 1 :=
  ⟨by decide, by decide,
    ((C2_registration_slots
        [⟨"a.jpg", some ⟨2, 2, 3⟩, 7, "ta"⟩, ⟨"b.jpg", some ⟨2, 2, 4⟩, 9, "tb"⟩]
        (by decide) (by decide) (by decide)).2 1 (by decide)).2.1⟩

/-- Claim C3: `SetTransformations` writes to the `model` uniform exactly
`Translate(position) * RotateX(radians x) * RotateY(radians y) *
RotateZ(radians z) * Scale(scale)` (with the textbook per-axis rotation
matrices and degree-to-radian conversion applied internally), and the default
inputs scale (1,1,1), rotations (0,0,0), position (0,0,0) yield the identity
matrix over ℝ. -/
theorem C3_setTransformations_model :
    (∀ (S : Type) [Field S] (ops : RealOps S) (sc : S × S × S) (x y z : S)
        (p : S × S × S) (st : SceneState S),
      (SetTransformations ops sc x y z p st).uniforms.model =
        glmTranslate p * rotationXMatrix ops (glmRadians ops x) *
          rotationYMatrix ops (glmRadians ops y) *
          rotationZMatrix ops (glmRadians ops z) * glmScale sc) ∧
    (∀ st : SceneState ℝ,
      (SetTransformations ⟨Real.pi, Real.cos, Real.sin⟩ ((1 : ℝ), 1, 1) 0 0 0
          (0, 0, 0) st).uniforms.model = 1) := by
  constructor
  · intro S _ ops sc x y z p st
    show setTransformationsMatrix ops sc x y z p = _
    simp only [setTransformationsMatrix]
    rw [glmRotate_unitX, glmRotate_unitY, glmRotate_unitZ]
  · intro st
    show setTransformationsMatrix _ _ _ _ _ _ = 1
    simp only [setTransformationsMatrix]
    rw [glmRotate_unitX, glmRotate_unitY, glmRotate_unitZ]
    simp only [glmRadians_zero]
    rw [rotationXMatrix_zero _ Real.cos_zero Real.sin_zero,
      rotationYMatrix_zero _ Real.cos_zero Real.sin_zero,
      rotationZMatrix_zero _ Real.cos_zero Real.sin_zero,
      glmScale_one, glmTranslate_zero]
    simp

/-- Claim C4: `SetShaderTexture` with a tag absent from the texture registry
sets the use-texture flag to `true` and writes the sentinel slot `-1` to the
sampler uniform (the embedding is a total function, so the call cannot
crash). -/
theorem C4_setShaderTexture_missing_tag (st : SceneState R) (tag : String)
    (h : tag ∉ st.textureIDs.map TEXTURE_INFO.tag) :
    (SetShaderTexture tag st).uniforms.bUseTexture = true ∧
    (SetShaderTexture tag st).uniforms.objectTexture = -1 := by
  refine ⟨rfl, ?_⟩
  show FindTextureSlot st.textureIDs tag = -1
  rw [FindTextureSlot]
  exact findSlotAux_not_mem tag st.textureIDs h 0

/-- Claim C4 witness: the tag `nope` is not registered in `exampleState`, and
`SetShaderTexture` there sets the flag and writes slot `-1`. -/
theorem C4_setShaderTexture_missing_tag_witness :
    "nope" ∉ exampleState.textureIDs.map TEXTURE_INFO.tag ∧
    ((SetShaderTexture "nope" exampleState).uniforms.bUseTexture = true ∧
     (SetShaderTexture "nope" exampleState).uniforms.objectTexture = -1) :=
  ⟨by decide, C4_setShaderTexture_missing_tag exampleState "nope" (by decide)⟩

/-- Claim C5: a `CreateGLTexture` call whose decode fails, or whose decoded
channel count is neither 3 nor 4, returns `false`, leaves the registry
unchanged, logs the condition, and (being a returning, total function) does
not terminate the process: any subsequent registration behaves exactly as it
would have from the original state. -/
theorem C5_createGLTexture_failure (filename : String)
    (image : Option ImageData) (textureID : Nat) (tag : String)
    (t : List TEXTURE_INFO)
    (hfail : image = none ∨
      ∃ d, image = some d ∧ d.channels ≠ 3 ∧ d.channels ≠ 4) :
    (CreateGLTexture filename image textureID tag t).1 = false ∧
    (CreateGLTexture filename image textureID tag t).2.1 = t ∧
    (CreateGLTexture filename image textureID tag t).2.2 ≠ [] ∧
    (image = none →
      "Could not load image:" ++ filename ∈
        (CreateGLTexture filename image textureID tag t).2.2) ∧
    (∀ d, image = some d →
      "Not implemented to handle image with " ++ toString d.channels ++
          " channels" ∈
        (CreateGLTexture filename image textureID tag t).2.2) ∧
    (∀ f2 img2 id2 tag2,
      CreateGLTexture f2 img2 id2 tag2
          (CreateGLTexture filename image textureID tag t).2.1 =
        CreateGLTexture f2 img2 id2 tag2 t) := by
  rcases hfail with hnone | ⟨d, hd, h3, h4⟩
  · subst hnone
    refine ⟨rfl, rfl, by simp [CreateGLTexture], ?_, ?_, fun _ _ _ _ => rfl⟩
    · intro _
      simp [CreateGLTexture]
    · intro d hd
      cases hd
  · subst hd
    refine ⟨?_, ?_, ?_, ?_, ?_, ?_⟩ <;>
      simp [CreateGLTexture, h3, h4]

/-- Claim C5 witness: a failed decode returns `false`, keeps the registry
empty and logs; an unsupported 2-channel image does the same. -/
theorem C5_createGLTexture_failure_witness :
    ((CreateGLTexture "missing.jpg" none 5 "m" []).1 = false ∧
     (CreateGLTexture "missing.jpg" none 5 "m" []).2.1 = [] ∧
     (CreateGLTexture "missing.jpg" none 5 "m" []).2.2 ≠ []) ∧
    ((some (⟨8, 8, 2⟩ : ImageData) = none ∨
      ∃ d, some (⟨8, 8, 2⟩ : ImageData) = some d ∧
        d.channels ≠ 3 ∧ d.channels ≠ 4) ∧
     (CreateGLTexture "gray.jpg" (some ⟨8, 8, 2⟩) 6 "g" []).2.1 = []) :=
  ⟨(fun h => ⟨h.1, h.2.1, h.2.2.1⟩)
      (C5_createGLTexture_failure "missing.jpg" none 5 "m" [] (Or.inl rfl)),
   ⟨Or.inr ⟨⟨8, 8, 2⟩, rfl, by decide, by decide⟩,
    (C5_createGLTexture_failure "gray.jpg" (some ⟨8, 8, 2⟩) 6 "g" []
        (Or.inr ⟨⟨8, 8, 2⟩, rfl, by decide, by decide⟩)).2.1⟩⟩

/-- Claim C6: `SetShaderColor` clears the use-texture flag, writes the flat
color, and leaves the five material uniforms and the sampler-slot uniform
exactly as they were. -/
theorem C6_setShaderColor_effect (r g b a : ℚ) (st : SceneState R) :
    (SetShaderColor r g b a st).uniforms.bUseTexture = false ∧
    (SetShaderColor r g b a st).uniforms.objectColor = (r, g, b, a) ∧
    (SetShaderColor r g b a st).uniforms.materialAmbientColor =
      st.uniforms.materialAmbientColor ∧
    (SetShaderColor r g b a st).uniforms.materialAmbientStrength =
      st.uniforms.materialAmbientStrength ∧
    (SetShaderColor r g b a st).uniforms.materialDiffuseColor =
      st.uniforms.materialDiffuseColor ∧
    (SetShaderColor r g b a st).uniforms.materialSpecularColor =
      st.uniforms.materialSpecularColor ∧
    (SetShaderColor r g b a st).uniforms.materialShininess =
      st.uniforms.materialShininess ∧
    (SetShaderColor r g b a st).uniforms.objectTexture =
      st.uniforms.objectTexture :=
  ⟨rfl, rfl, rfl, rfl, rfl, rfl, rfl, rfl⟩

/-- Claim C7 counterexample: the texture-loading pass of `PrepareScene`
performs 14 texture registrations, not 11. -/
theorem C7_not_eleven_registrations :
    ¬ (PrepareSceneEvents.countP SceneEvent.isRegisterTexture = 11) := by
  decide

/-- Claim C7 (amended): `PrepareScene` performs, exactly once and in this
order, light configuration, material seeding, registration of the 14 fixed
tag/file pairs followed by a single `BindGLTextures`, and then the nine
primitive-mesh load requests. -/
theorem C7_prepareScene_order :
    PrepareSceneEvents =
      [SceneEvent.setupLights, SceneEvent.defineMaterials] ++
        (sceneTexturePairs.map fun pr => SceneEvent.registerTexture pr.1 pr.2) ++
        [SceneEvent.bindAll] ++ sceneMeshNames.map SceneEvent.loadMesh ∧
    sceneTexturePairs.length = 14 ∧
    PrepareSceneEvents.countP SceneEvent.isRegisterTexture = 14 ∧
    PrepareSceneEvents.countP SceneEvent.isBindAll = 1 ∧
    PrepareSceneEvents.countP (fun e => e == SceneEvent.setupLights) = 1 ∧
    PrepareSceneEvents.countP (fun e => e == SceneEvent.defineMaterials) = 1 ∧
    PrepareSceneEvents.countP SceneEvent.isLoadMesh = 9 := by
  decide

/-- Claim C8: `DefineObjectMaterials` appends exactly the five materials
shiny, shinyish, porcelaine, dull, void in that order with the stated field
values, and looking the catalog up afterwards yields shininess 50 for `shiny`
and 0 for `void`. -/
theorem C8_defineObjectMaterials_catalog (ms : List OBJECT_MATERIAL)
    (m : OBJECT_MATERIAL) :
    DefineObjectMaterials ms = ms ++
      [⟨0.7, (0.3, 0.3, 0.3), (0.8, 0.7, 0.2), (0.5, 0.5, 0.5), 50, "shiny"⟩,
       ⟨0.5, (0.3, 0.3, 0.3), (0.8, 0.7, 0.2), (0.5, 0.5, 0.5), 25, "shinyish"⟩,
       ⟨0.5, (0.3, 0.3, 0.3), (0.8, 0.7, 0.2), (0.5, 0.5, 0.5), 16, "porcelaine"⟩,
       ⟨0.6, (0.3, 0.3, 0.3), (0.8, 0.7, 0.2), (0.5, 0.5, 0.5), 1, "dull"⟩,
       ⟨0, (0, 0, 0), (0, 0, 0), (0, 0, 0), 0, "void"⟩] ∧
    (FindMaterial (DefineObjectMaterials []) "shiny" m).2.shininess = 50 ∧
    (FindMaterial (DefineObjectMaterials []) "void" m).2.shininess = 0 :=
  ⟨rfl, rfl, rfl⟩

/-- Claim C9: for every registry state, `BindGLTextures` is idempotent — a
second call produces the same unit-to-handle assignment as the first — and it
binds each registered texture's handle to its own slot index. -/
theorem C9_bindAll_idempotent (t : List TEXTURE_INFO) (bound : Nat → Nat) :
    BindGLTextures t (BindGLTextures t bound) = BindGLTextures t bound ∧
    ∀ k (hk : k < t.length), BindGLTextures t bound k = t[k].ID := by
  constructor
  · funext u
    rw [BindGLTextures_apply, BindGLTextures_apply]
    cases h : t[u]? with
    | none => simp [BindGLTextures_apply, h]
    | some e => simp [h]
  · intro k hk
    rw [BindGLTextures_apply, List.getElem?_eq_getElem hk]
    simp

/-- Claim C9 witness: on a two-entry registry, double binding equals single
binding, and entry 1's handle 7 is bound to unit 1. -/
theorem C9_bindAll_idempotent_witness :
    BindGLTextures [⟨"ta", 5⟩, ⟨"tb", 7⟩]
        (BindGLTextures [⟨"ta", 5⟩, ⟨"tb", 7⟩] fun _ => 0) =
      BindGLTextures [⟨"ta", 5⟩, ⟨"tb", 7⟩] (fun _ => 0) ∧
    BindGLTextures [⟨"ta", 5⟩, ⟨"tb", 7⟩] (fun _ => 0) 1 = 7 :=
  ⟨(C9_bindAll_idempotent [⟨"ta", 5⟩, ⟨"tb", 7⟩] (fun _ => 0)).1,
   (C9_bindAll_idempotent [⟨"ta", 5⟩, ⟨"tb", 7⟩] (fun _ => 0)).2 1 (by decide)⟩

set_option maxRecDepth 8000 in
set_option maxHeartbeats 1000000 in
/-- Claim C10: `RenderScene` never mutates registry state — after the whole
render pass the texture registry and the material catalog are exactly what
they were before the call, for every starting state. -/
theorem C10_renderScene_preserves_registries (ops : RealOps R)
    (junk : OBJECT_MATERIAL) (st : SceneState R) :
    (RenderScene ops junk st).textureIDs = st.textureIDs ∧
    (RenderScene ops junk st).objectMaterials = st.objectMaterials := by
  constructor <;>
    simp [RenderScene, foldl_renderLightCube_textureIDs,
      foldl_renderLightCube_objectMaterials]

end SceneManager




